import Mathlib

/-!
# Verification of the Exclusive-Server service layer

A shallow embedding, in Lean 4, of the service layer of the Exclusive-Server
e-commerce API (product CRUD and user authentication), translated from
`src/services/productService.js`, `src/services/auth/authService.js`,
`src/services/auth/tokenService.js`, `src/Repositories/productRepository.js`,
`src/Repositories/userRepository.js`, `src/validators/authValidator.js` and
`src/models/userModel.js`.

Modelling conventions:
* The document store is a value (`List Product` / `List User`); repository
  calls are pure functions over it, and the store after a call is returned
  explicitly.  Each service call also returns the list of storage operations
  it performed (`DbOp`), so "before touching storage" claims are provable.
* A JavaScript exception is either an `ApiError` instance or any other thrown
  value (`JsError.raw`): `ReferenceError`s, mongoose `ValidationError`s and
  storage-engine failures are all `raw`.  A `try`/`catch` block is a function
  on `Except JsError`.
* Storage-engine failures are injected through explicit `Option String`
  fault parameters (one per repository call), so claims quantifying over
  "every storage outcome" quantify over these parameters.
* JavaScript numbers on the paths the claims exercise are integers; they are
  modelled as `Int`.  `Number(string)` is modelled for optionally signed
  decimal integer literals with surrounding whitespace (other JS numeric
  literal forms — fractions, exponents, hex — do not denote product ids).
* `undefined` function arguments and object fields are `Option.none`.
-/

/-- Modelled from the spec: the `ApiError` envelope of `src/utils/ApiError.js`
(the file itself is not under `src/`; the spec gives its shape as
`{message, statusCode, errorCode, details, isOperational: true}`; the
constant `isOperational = true` field carries no information and is dropped). -/
structure ApiError where
  message : String
  statusCode : Nat
  errorCode : String
  details : Option String
deriving Repr, DecidableEq

/-- Modelled from the spec: the `ApiSuccess` envelope of `src/utils/ApiSuccess.js`
(the file itself is not under `src/`; the spec gives its shape as
`{message, statusCode, data, successCode, isSuccess: true}`). -/
structure ApiSuccess (α : Type) where
  message : String
  statusCode : Nat
  data : α
  successCode : String
deriving Repr, DecidableEq

/-- A thrown JavaScript value: either an `ApiError` instance or anything else
(`raw` covers `ReferenceError`s, mongoose validation errors and
storage-engine errors, identified by their message). -/
inductive JsError where
  | api (e : ApiError)
  | raw (msg : String)
deriving Repr, DecidableEq

/-- The result of a service call: a returned `ApiSuccess` or a thrown value. -/
abbrev SvcResult (α : Type) := Except JsError (ApiSuccess α)

/-- The storage operations a service call can perform, recorded in order. -/
inductive DbOp where
  | prodFind
  | prodWrite
  | userFind
  | userWrite
deriving Repr, DecidableEq

/-- Embedding of `error.message` of a thrown value, as read by the `catch` blocks. -/
def JsError.messageOf : JsError → String
  | .api e => e.message
  | .raw m => m

/-- The `catch` pattern of `getAllProducts`, `getProductById` and `delete` in
`src/services/productService.js`: re-throw `ApiError` instances
(`if (error instanceof ApiError) throw error`), wrap anything else into a
500 `ApiError` with `details = error.message`. -/
def rethrowOrWrap (wrapMsg wrapCode : String) : Except JsError α → Except JsError α
  | .ok v => .ok v
  | .error (.api e) => .error (.api e)
  | .error (.raw m) =>
      .error (.api ⟨wrapMsg, 500, wrapCode, some m⟩)

/-- The `catch` pattern of `create` and `update` in
`src/services/productService.js`: these two blocks have no
`instanceof ApiError` re-throw, so every failure — including the service's
own 400 `ApiError`s thrown inside the `try` — is re-wrapped into a 500
`ApiError` with `details = error.message`. -/
def wrapAll (wrapMsg wrapCode : String) : Except JsError α → Except JsError α
  | .ok v => .ok v
  | .error e =>
      .error (.api ⟨wrapMsg, 500, wrapCode, some e.messageOf⟩)

/-- JavaScript truthiness of a possibly-undefined string (`!id` in the
services): `undefined` and the empty string are falsy. -/
def jsFalsy : Option String → Bool
  | none => true
  | some s => s = ""

/-- Whitespace trimming over the character list (the JS `String.prototype`
trim applied by `Number()` and by the mongoose `trim: true` setter). -/
def jsTrim (s : String) : String :=
  ⟨((s.data.dropWhile Char.isWhitespace).reverse.dropWhile Char.isWhitespace).reverse⟩

/-- Embedding of `Number(s)` for a route-parameter string, restricted to optionally signed
decimal integer literals with surrounding whitespace: `none` is `NaN`.  A
whitespace-only string is `0` in JS.  (Fractional, exponent and hex literals
are outside the model; no product id takes those forms.) -/
def jsNumber (s : String) : Option Int :=
  match (s.data.dropWhile Char.isWhitespace).reverse.dropWhile Char.isWhitespace |>.reverse with
  | [] => some 0
  | c :: rest =>
      let (sign, digits) : Int × List Char :=
        if c = '-' then (-1, rest)
        else if c = '+' then (1, rest)
        else (1, c :: rest)
      if digits ≠ [] ∧ digits.all Char.isDigit then
        some (sign * ((digits.foldl (fun a d => a * 10 + (d.toNat - 48)) 0 : Nat) : Int))
      else none

-- -------------------- Product data model --------------------

/-- A product document, from the schema in `src/models/productModel.js`.
The nested `colors` array is omitted: no claim reads it, and it plays no
role in any service-layer branch. -/
structure Product where
  id : Int
  title : String
  price : Int
  discountPrice : Option Int
  ratingCount : Nat
  avgRate : Int
  mainImgSRC : String
  description : String
  category : String
  subCategory : String
  isFeatured : Option Bool
  isFlash : Option Bool
deriving Repr, DecidableEq

/-- One field assignment of an update patch (`Object.keys(updateData)` counts
these; `Object.assign` applies them as shallow overwrites). -/
inductive PatchOp where
  | title (v : String)
  | price (v : Int)
  | description (v : String)
  | category (v : String)
  | subCategory (v : String)
deriving Repr, DecidableEq

/-- Shallow field overwrite of one patch entry (`Object.assign` semantics). -/
def applyPatchOp (p : Product) : PatchOp → Product
  | .title v => { p with title := v }
  | .price v => { p with price := v }
  | .description v => { p with description := v }
  | .category v => { p with category := v }
  | .subCategory v => { p with subCategory := v }

/-- Embedding of `Object.assign(existingProduct, updateData)`: apply every patch entry. -/
def applyPatch (p : Product) (patch : List PatchOp) : Product :=
  patch.foldl applyPatchOp p

/-- Embedding of `!updateData || Object.keys(updateData).length === 0` in
`ProductService.update`. -/
def patchEmpty : Option (List PatchOp) → Bool
  | none => true
  | some l => l.isEmpty

/-- The `options` object handed to `ProductRepository.findWithPagination`
(built by the query normalizer): `sort` is kept abstract as the reordering
the storage engine would perform for the given sort spec. -/
structure QueryOptions where
  random : Bool
  limit : Nat
  skip : Nat
  sort : List Product → List Product

/-- One step of the `$sample` shuffle: move the seed-selected element to the
front.  `seeds` supplies the storage engine's randomness. -/
def sampleShuffle : List Nat → List Product → List Product
  | _, [] => []
  | [], l => l
  | s :: ss, x :: xs =>
      let l := x :: xs
      let i := s % l.length
      l.getD i x :: sampleShuffle ss (l.eraseIdx i)

/-- The `$sample: { size }` aggregation stage: a random selection (driven by
`seeds`) of at most `size` documents from `l`, without replacement. -/
def sampleStage (seeds : List Nat) (size : Nat) (l : List Product) : List Product :=
  (sampleShuffle seeds l).take size

-- -------------------- Product repository --------------------

/-- Embedding of `ProductRepository.findWithPagination` of
`src/Repositories/productRepository.js`: with `options.random`, aggregate
`$match` then `$sample` of size `options.limit`; otherwise
`find(filter).sort(options.sort).skip(options.skip).limit(options.limit)`. -/
def ProductRepository.findWithPagination (filter : Product → Bool)
    (options : QueryOptions) (seeds : List Nat) (db : List Product) : List Product :=
  if options.random then
    sampleStage seeds options.limit (db.filter filter)
  else
    (((options.sort (db.filter filter)).drop options.skip).take options.limit)

/-- Embedding of `ProductRepository.findWithID` of `src/Repositories/productRepository.js`
applied to a route-parameter string: falsy id → `null`; `Number(id)` `NaN` →
`null` (both without querying); else `findOne({id: numericId})` (which the
`fault` parameter can make throw). -/
def ProductRepository.findWithID (db : List Product) (id : Option String)
    (fault : Option String) : Except JsError (Option Product) :=
  match id with
  | none => .ok none
  | some s =>
      if s = "" then .ok none
      else
        match jsNumber s with
        | none => .ok none
        | some n =>
            match fault with
            | some m => .error (.raw m)
            | none => .ok (db.find? (fun p => p.id == n))

/-- Embedding of `ProductRepository.findWithID` applied to an already-numeric id, as
`update` and `delete` call it.  JS `!id` is true for the number `0`, so id
`0` short-circuits to `null` without querying. -/
def ProductRepository.findWithIDNum (db : List Product) (n : Int)
    (fault : Option String) : Except JsError (Option Product) :=
  if n = 0 then .ok none
  else
    match fault with
    | some m => .error (.raw m)
    | none => .ok (db.find? (fun p => p.id == n))

/-- Embedding of `ProductRepository.getLastId` of `src/unnamed/part_000`: a
`$group`/`$max "$id"` aggregation; `result.length ? result[0].maxId : 0`,
i.e. `0` on an empty collection, else the maximum stored id. -/
def ProductRepository.getLastId (db : List Product) : Int :=
  match (db.map (fun p => p.id)).max? with
  | some m => m
  | none => 0

-- -------------------- Product service --------------------

/-- Embedding of `ProductService.getAllProducts` of `src/services/productService.js`:
fetch via `findWithPagination` (the query normalizer's output `filter`,
`options` are taken as inputs), wrap in `PRODUCTS_FETCHED`; the `catch`
re-throws `ApiError`s and wraps anything else as `PRODUCTS_FETCH_ERROR` 500. -/
def ProductService.getAllProducts (filter : Product → Bool) (options : QueryOptions)
    (seeds : List Nat) (db : List Product) (fetchFault : Option String) :
    SvcResult (List Product) :=
  let inner : Except JsError (ApiSuccess (List Product)) :=
    match fetchFault with
    | some m => .error (.raw m)
    | none =>
        let products := ProductRepository.findWithPagination filter options seeds db
        .ok ⟨"Products fetched successfully", 200, products, "PRODUCTS_FETCHED"⟩
  rethrowOrWrap "Failed to fetch products" "PRODUCTS_FETCH_ERROR" inner

/-- Embedding of `ProductService.getProductById` of `src/services/productService.js`:
falsy id → `MISSING_PRODUCT_ID` 400; lookup miss (including a non-numeric
id, which `findWithID` maps to `null`) → `PRODUCT_NOT_FOUND` 404; the
`catch` re-throws `ApiError`s and wraps anything else as
`PRODUCT_FETCH_ERROR` 500. -/
def ProductService.getProductById (id : Option String) (db : List Product)
    (findFault : Option String) : SvcResult Product :=
  let inner : Except JsError (ApiSuccess Product) :=
    if jsFalsy id then
      .error (.api ⟨"Product ID is required", 400, "MISSING_PRODUCT_ID", none⟩)
    else
      match ProductRepository.findWithID db id findFault with
      | .error e => .error e
      | .ok none => .error (.api ⟨"Product not found", 404, "PRODUCT_NOT_FOUND", none⟩)
      | .ok (some p) => .ok ⟨"Product fetched successfully", 200, p, "PRODUCT_FETCHED"⟩
  rethrowOrWrap "Failed to fetch product" "PRODUCT_FETCH_ERROR" inner

/-- Embedding of `ProductService.create` of `src/services/productService.js`: falsy
`productData` → `MISSING_PRODUCT_DATA` 400 (then re-wrapped by the catch,
see `wrapAll`); otherwise `productData.id = getLastId() + 1` and
`repository.create`; success is `PRODUCT_CREATED` 201.  `aggFault` makes the
`getLastId` aggregation throw, `createFault` makes `Product.create` throw
(covering both schema-validation and infrastructure failures).  Returns
`(result, store after, operations performed)`. -/
def ProductService.createTry (productData : Option Product) (db : List Product)
    (aggFault createFault : Option String) :
    Except JsError (ApiSuccess Product) × List Product × List DbOp :=
  match productData with
  | none =>
      (.error (.api ⟨"Product data is required", 400, "MISSING_PRODUCT_DATA", none⟩),
       db, [])
  | some d =>
      match aggFault with
      | some m => (.error (.raw m), db, [.prodFind])
      | none =>
          let d' := { d with id := ProductRepository.getLastId db + 1 }
          match createFault with
          | some m => (.error (.raw m), db, [.prodFind])
          | none =>
              (.ok ⟨"Product created successfully", 201, d', "PRODUCT_CREATED"⟩,
               db ++ [d'], [.prodFind, .prodWrite])

/-- The whole of `ProductService.create`: the `try` body wrapped by its
`catch` (`wrapAll`, since this catch re-wraps `ApiError`s too). -/
def ProductService.create (productData : Option Product) (db : List Product)
    (aggFault createFault : Option String) :
    SvcResult Product × List Product × List DbOp :=
  let t := ProductService.createTry productData db aggFault createFault
  (wrapAll "Failed to create product" "PRODUCT_CREATE_ERROR" t.1, t.2.1, t.2.2)

/-- Embedding of `ProductService.update` of `src/services/productService.js`: falsy id →
`MISSING_PRODUCT_ID` 400; `Number(id)` `NaN` → `INVALID_PRODUCT_ID` 400;
empty patch → `MISSING_UPDATE_DATA` 400; lookup miss → `PRODUCT_NOT_FOUND`
404; else `Object.assign` merge and save (`PRODUCT_UPDATED` 200).  Every
failure is re-wrapped by the catch into `PRODUCT_UPDATE_ERROR` 500
(`wrapAll`: this catch has no `instanceof ApiError` re-throw).  Returns
`(result, store after, operations performed)`. -/
def ProductService.updateTry (id : Option String) (patch : Option (List PatchOp))
    (db : List Product) (findFault saveFault : Option String) :
    Except JsError (ApiSuccess Product) × List Product × List DbOp :=
  if jsFalsy id then
    (.error (.api ⟨"Product ID is required", 400, "MISSING_PRODUCT_ID", none⟩), db, [])
  else
    match jsNumber ((id.getD "")) with
    | none =>
        (.error (.api ⟨"Invalid product ID format", 400, "INVALID_PRODUCT_ID", none⟩),
         db, [])
    | some n =>
        if patchEmpty patch then
          (.error (.api ⟨"Update data is required", 400, "MISSING_UPDATE_DATA", none⟩),
           db, [])
        else
          match ProductRepository.findWithIDNum db n findFault with
          | .error e => (.error e, db, [.prodFind])
          | .ok none =>
              (.error (.api ⟨"Product not found", 404, "PRODUCT_NOT_FOUND", none⟩),
               db, [.prodFind])
          | .ok (some p) =>
              match saveFault with
              | some m => (.error (.raw m), db, [.prodFind])
              | none =>
                  let p' := applyPatch p (patch.getD [])
                  (.ok ⟨"Product updated successfully", 200, p', "PRODUCT_UPDATED"⟩,
                   db.map (fun q => if q.id == n then p' else q),
                   [.prodFind, .prodWrite])

/-- The whole of `ProductService.update`: the `try` body wrapped by its
`catch` (`wrapAll`, since this catch re-wraps `ApiError`s too). -/
def ProductService.update (id : Option String) (patch : Option (List PatchOp))
    (db : List Product) (findFault saveFault : Option String) :
    SvcResult Product × List Product × List DbOp :=
  let t := ProductService.updateTry id patch db findFault saveFault
  (wrapAll "Failed to update product" "PRODUCT_UPDATE_ERROR" t.1, t.2.1, t.2.2)

/-- Embedding of `ProductService.delete` of `src/services/productService.js`: falsy id →
`MISSING_PRODUCT_ID` 400; `Number(id)` `NaN` → `INVALID_PRODUCT_ID` 400;
lookup miss → `PRODUCT_NOT_FOUND` 404; else `findOneAndDelete({id})` and
`PRODUCT_DELETED` 200 with the removed record.  The `catch` re-throws
`ApiError`s and wraps anything else as `PRODUCT_DELETE_ERROR` 500.  Returns
`(result, store after, operations performed)`. -/
def ProductService.deleteTry (id : Option String) (db : List Product)
    (findFault deleteFault : Option String) :
    Except JsError (ApiSuccess Product) × List Product × List DbOp :=
  if jsFalsy id then
    (.error (.api ⟨"Product ID is required", 400, "MISSING_PRODUCT_ID", none⟩), db, [])
  else
    match jsNumber ((id.getD "")) with
    | none =>
        (.error (.api ⟨"Invalid product ID format", 400, "INVALID_PRODUCT_ID", none⟩),
         db, [])
    | some n =>
        match ProductRepository.findWithIDNum db n findFault with
        | .error e => (.error e, db, [.prodFind])
        | .ok none =>
            (.error (.api ⟨"Product not found", 404, "PRODUCT_NOT_FOUND", none⟩),
             db, [.prodFind])
        | .ok (some p) =>
            match deleteFault with
            | some m => (.error (.raw m), db, [.prodFind])
            | none =>
                (.ok ⟨"Product deleted successfully", 200, p, "PRODUCT_DELETED"⟩,
                 db.eraseP (fun q => q.id == n), [.prodFind, .prodWrite])

/-- The whole of `ProductService.delete`: the `try` body wrapped by its
`catch` (`rethrowOrWrap`: this catch does re-throw `ApiError` instances). -/
def ProductService.delete (id : Option String) (db : List Product)
    (findFault deleteFault : Option String) :
    SvcResult Product × List Product × List DbOp :=
  let t := ProductService.deleteTry id db findFault deleteFault
  (rethrowOrWrap "Failed to delete product" "PRODUCT_DELETE_ERROR" t.1, t.2.1, t.2.2)

-- -------------------- User data model --------------------

/-- ASCII-only lowercasing of a character: the mongoose `lowercase: true`
setter (JS `toLowerCase`) restricted to ASCII, which is all that validated
emails can contain. -/
def lowerChar (c : Char) : Char :=
  match c with
  | 'A' => 'a' | 'B' => 'b' | 'C' => 'c' | 'D' => 'd' | 'E' => 'e' | 'F' => 'f'
  | 'G' => 'g' | 'H' => 'h' | 'I' => 'i' | 'J' => 'j' | 'K' => 'k' | 'L' => 'l'
  | 'M' => 'm' | 'N' => 'n' | 'O' => 'o' | 'P' => 'p' | 'Q' => 'q' | 'R' => 'r'
  | 'S' => 's' | 'T' => 't' | 'U' => 'u' | 'V' => 'v' | 'W' => 'w' | 'X' => 'x'
  | 'Y' => 'y' | 'Z' => 'z'
  | c => c

/-- Lowercase every character of a string. -/
def asciiLower (s : String) : String :=
  ⟨s.data.map lowerChar⟩

/-- The mongoose setters on `userSchema.email` (`src/models/userModel.js`):
`lowercase: true` and `trim: true`.  Mongoose applies these both when saving
and to the values of query filters, so `findOne({email})` matches
case-insensitively against the stored (lowercased) emails. -/
def emailSetter (e : String) : String :=
  jsTrim (asciiLower e)

/-- The `/^[\x00-\x7F]+$/` test of `src/validators/authValidator.js` for a
nonempty string: every character is ASCII. -/
def isAsciiStr (s : String) : Bool :=
  s.data.all (fun c => c.toNat ≤ 127)

/-- Modelled from the spec: the external `validator.isEmail` check used by
`userSchema.email` ("valid email syntax").  Modelled as: exactly one `@`
separating a nonempty local part from a domain that contains a dot. -/
def isEmailLike (s : String) : Bool :=
  match s.data.splitOn '@' with
  | [lp, dp] => !lp.isEmpty && !dp.isEmpty && dp.contains '.'
  | _ => false

/-- A stored user document, from `src/models/userModel.js`.  `uid` models the
Mongo `_id` (assigned at insertion); `password` holds the bcrypt digest
(the schema stores only the hash, `select: false`). -/
structure User where
  uid : Nat
  fullName : String
  email : String
  password : String
  role : String
deriving Repr, DecidableEq

/-- Modelled from the spec: the bcrypt capability contract
(`hash(plaintext) -> digest`, one-way).  Modelled as an injective tagging
function; `comparePassword` is digest equality against the hash of the
candidate, as `bcrypt.compare` behaves on digests produced by `hashFn`. -/
def hashFn (plain : String) : String :=
  "$2b$10$" ++ plain

/-- Embedding of `userSchema.methods.comparePassword` of `src/models/userModel.js`:
`bcrypt.compare(candidatePassword, this.password)`. -/
def comparePassword (candidate stored : String) : Bool :=
  stored == hashFn candidate

/-- The mongoose schema validation run by `user.save()`
(`src/models/userModel.js`), on the values after setters: `fullName`
required, length 3–50; `email` required, valid email syntax, ASCII-only;
`password` required, at least 6 characters (validation runs before the
pre-save hashing hook, so on the plain text); `role`, when given, in the
enum `{user, admin}`. -/
def userValidate (fullName email password : String) (role : Option String) : Bool :=
  (3 ≤ fullName.length && fullName.length ≤ 50) &&
  (email ≠ "" && isEmailLike email && isAsciiStr email) &&
  (password ≠ "" && 6 ≤ password.length) &&
  (match role with
   | none => true
   | some r => r == "user" || r == "admin")

/-- The fields of a register call's body, each possibly `undefined`
(`const { email, password, fullName, role } = ...`). -/
structure RegisterInput where
  email : Option String
  password : Option String
  fullName : Option String
  role : Option String
deriving Repr, DecidableEq

-- -------------------- User repository --------------------

/-- Embedding of `UserRepository.findByEmail` of `src/Repositories/userRepository.js`:
`User.findOne({ email }).select("+password")`; mongoose runs the schema
setters on the query value, so the lookup key is the lowercased, trimmed
email. -/
def UserRepository.findByEmail (store : List User) (email : String) : Option User :=
  store.find? (fun u => u.email == emailSetter email)

/-- Embedding of `UserRepository.create` of `src/Repositories/userRepository.js`:
`new User(userData)` (setters applied, `role` defaulting to `"user"` when
absent) then `user.save()` — schema validation first (a failure throws a
mongoose `ValidationError`, not an `ApiError`), then the pre-save hook
hashes the password, then the insert.  `undefined` required fields fail the
`required` validators exactly as empty strings do. -/
def UserRepository.create (store : List User) (inp : RegisterInput) :
    Except JsError (User × List User) :=
  let fullName := jsTrim (inp.fullName.getD "")
  let email := emailSetter (inp.email.getD "")
  let password := inp.password.getD ""
  if userValidate fullName email password inp.role then
    let u : User := ⟨store.length + 1, fullName, email, hashFn password, inp.role.getD "user"⟩
    .ok (u, store ++ [u])
  else
    .error (.raw "ValidationError: User validation failed")

-- -------------------- Auth validator --------------------

/-- Embedding of `validateEmail` of `src/validators/authValidator.js`.  Both failure
branches execute `throw new ApiError({... INVALID_EMAIL, 400 ...})`, but
`authValidator.js` has no import of `ApiError`, so evaluating the
constructor raises `ReferenceError: ApiError is not defined` — the thrown
value is the `ReferenceError`, never the intended `ApiError`. -/
def validateEmail (email : Option String) : Except JsError Unit :=
  match email with
  | none => .error (.raw "ReferenceError: ApiError is not defined")
  | some e =>
      if e = "" then .error (.raw "ReferenceError: ApiError is not defined")
      else if !(isAsciiStr e) then .error (.raw "ReferenceError: ApiError is not defined")
      else .ok ()

-- -------------------- Token service --------------------

/-- The claims payload embedded in an issued token
(`{id, email, fullName, role}` in `AuthService.login`). -/
structure Claims where
  id : Nat
  email : String
  fullName : String
  role : String
deriving Repr, DecidableEq

/-- Modelled from the spec: a signed token (`sign(claims, expiry) -> token`,
the token-issuer capability contract); the token is represented by the
claims it embeds. -/
structure Token where
  claims : Claims
deriving Repr, DecidableEq

/-- Embedding of `TokenService.generateToken` of `src/services/auth/tokenService.js`:
`jwt.sign(payload, secret, {expiresIn})` — the token embedding `payload`. -/
def TokenService.generateToken (payload : Claims) : Token :=
  ⟨payload⟩

/-- The `data` of a successful login: `{token, user: payload}`. -/
structure LoginData where
  token : Token
  user : Claims
deriving Repr, DecidableEq

-- -------------------- Auth service --------------------

/-- Embedding of `AuthService.register` of `src/services/auth/authService.js`.  There is
no `try`/`catch`: whatever `validateEmail`, `findByEmail` or `create`
throws crosses the service boundary as-is.  Flow: `validateEmail(email)`;
`findByEmail(email)` — a hit throws `EMAIL_EXISTS` 400; `create` (schema
validation + hash + insert); success is `USER_CREATED` 201 with
`{userId: user._id}`.  `findFault`/`createFault` make the respective
storage calls throw.  Returns `(result, store after, operations
performed)`. -/
def AuthService.register (inp : RegisterInput) (store : List User)
    (findFault createFault : Option String) :
    SvcResult Nat × List User × List DbOp :=
  match validateEmail inp.email with
  | .error e => (.error e, store, [])
  | .ok _ =>
      match findFault with
      | some m => (.error (.raw m), store, [.userFind])
      | none =>
          match UserRepository.findByEmail store (inp.email.getD "") with
          | some _ =>
              (.error (.api ⟨"Email already exists", 400, "EMAIL_EXISTS", none⟩),
               store, [.userFind])
          | none =>
              match createFault with
              | some m => (.error (.raw m), store, [.userFind])
              | none =>
                  match UserRepository.create store inp with
                  | .error e => (.error e, store, [.userFind])
                  | .ok (u, store') =>
                      (.ok ⟨"User created successfully", 201, u.uid, "USER_CREATED"⟩,
                       store', [.userFind, .userWrite])

/-- Embedding of `AuthService.login` of `src/services/auth/authService.js` for string
credentials.  There is no `try`/`catch`: a storage failure (`findFault`)
crosses the boundary as-is.  Flow: `findByEmail` — a miss throws
`USER_NOT_FOUND` 404; `comparePassword` — a mismatch throws
`INVALID_PASSWORD` 401; else `USER_LOGIN` 200 with `{token, user: payload}`
where `payload = {id, email, fullName, role}` of the stored user. -/
def AuthService.login (email password : String) (store : List User)
    (findFault : Option String) : SvcResult LoginData :=
  match findFault with
  | some m => .error (.raw m)
  | none =>
      match UserRepository.findByEmail store email with
      | none => .error (.api ⟨"User not found", 404, "USER_NOT_FOUND", none⟩)
      | some u =>
          if comparePassword password u.password then
            let payload : Claims := ⟨u.uid, u.email, u.fullName, u.role⟩
            .ok ⟨"User logged in successfully", 200,
                 ⟨TokenService.generateToken payload, payload⟩, "USER_LOGIN"⟩
          else
            .error (.api ⟨"Invalid password", 401, "INVALID_PASSWORD", none⟩)

-- -------------------- Classification predicates --------------------

/-- A service outcome is classified when it is a returned `ApiSuccess` or a
thrown `ApiError` — never a raw/unclassified exception. -/
def classifiedB : SvcResult α → Bool
  | .error (.raw _) => false
  | _ => true

/-- The inputs on which `validateEmail` fires (absent/empty email or a
non-ASCII character). -/
def emailInvalid : Option String → Bool
  | none => true
  | some s => s = "" || !(isAsciiStr s)

-- -------------------- Shared lemmas --------------------

/-- A `catch` block that wraps every failure yields only classified results. -/
theorem classifiedB_wrapAll (m c : String) (x : Except JsError (ApiSuccess α)) :
    classifiedB (wrapAll m c x) = true := by
  cases x with
  | ok v => rfl
  | error e => rfl

/-- A `catch` block that re-throws `ApiError`s and wraps the rest yields only
classified results. -/
theorem classifiedB_rethrowOrWrap (m c : String) (x : Except JsError (ApiSuccess α)) :
    classifiedB (rethrowOrWrap m c x) = true := by
  cases x with
  | ok v => rfl
  | error e => cases e <;> rfl

/-- A defaulted list lookup is an element of the list or the default. -/
theorem getD_mem_or_default (l : List α) (i : Nat) (d : α) :
    l.getD i d ∈ l ∨ l.getD i d = d := by
  induction l generalizing i with
  | nil => exact Or.inr rfl
  | cons a t ih =>
      cases i with
      | zero => exact Or.inl (by simp)
      | succ j =>
          rw [List.getD_cons_succ]
          rcases ih j with h | h
          · exact Or.inl (List.mem_cons_of_mem a h)
          · exact Or.inr h

/-- Every document returned by the `$sample` shuffle comes from its input. -/
theorem sampleShuffle_mem (seeds : List Nat) (l : List Product) (a : Product)
    (h : a ∈ sampleShuffle seeds l) : a ∈ l := by
  induction seeds generalizing l with
  | nil =>
      cases l with
      | nil => simp [sampleShuffle] at h
      | cons x xs => simp only [sampleShuffle] at h; exact h
  | cons s ss ih =>
      cases l with
      | nil => simp [sampleShuffle] at h
      | cons x xs =>
          simp only [sampleShuffle, List.mem_cons] at h
          rcases h with h | h
          · rcases getD_mem_or_default (x :: xs) (s % (x :: xs).length) x with hm | hd
            · rw [h]; exact hm
            · rw [h, hd]; exact List.mem_cons_self x xs
          · exact (List.eraseIdx_sublist (x :: xs) (s % (x :: xs).length)).subset (ih _ h)

/-- A `findWithIDNum` lookup on a store holding no product with the given id
returns `null` when the storage engine does not throw. -/
theorem findWithIDNum_miss (db : List Product) (n : Int)
    (h : db.find? (fun p => p.id == n) = none) :
    ProductRepository.findWithIDNum db n none = .ok none := by
  unfold ProductRepository.findWithIDNum
  split <;> simp [h]

-- -------------------- Sample data for concrete instantiations --------------------

/-- A concrete product used to instantiate universally quantified theorems. -/
def prodA : Product :=
  ⟨5, "Sample product", 100, none, 0, 4, "https://img.example/p.png",
   "A long product description", "electronics", "phones", none, none⟩

/-- A concrete stored user (as `register` would store one) used to
instantiate universally quantified theorems. -/
def userA : User :=
  ⟨1, "John Doe", "a@b.com", hashFn "secret1", "user"⟩

-- -------------------- C2 --------------------

/-- C2: the claim says `ProductService.update` with a provided numeric id and
an absent/empty patch fails with `MISSING_UPDATE_DATA` 400 before any
storage access.  The code does throw that `ApiError` before any repository
call — but `update`'s `catch` block lacks the `instanceof ApiError`
re-throw the other methods have, so the caller observes
`PRODUCT_UPDATE_ERROR` 500 (with the original message only in `details`).
This theorem evaluates the code at the failing inputs (id `"1"`, patch `{}`
or absent): result is the 500 re-wrap, the store is unchanged, and no
storage operation was performed. -/
theorem c2_update_empty_patch_wrapped_500 (db : List Product) (ff sf : Option String) :
    ProductService.update (some "1") (some []) db ff sf
      = (.error (.api ⟨"Failed to update product", 500, "PRODUCT_UPDATE_ERROR",
          some "Update data is required"⟩), db, [])
    ∧ ProductService.update (some "1") none db ff sf
      = (.error (.api ⟨"Failed to update product", 500, "PRODUCT_UPDATE_ERROR",
          some "Update data is required"⟩), db, []) :=
  ⟨rfl, rfl⟩

-- -------------------- C3 --------------------

/-- C3: the claim says `AuthService.register` with an absent/empty or
non-ASCII email fails with `INVALID_EMAIL` 400 before any user lookup or
creation.  The "before any user lookup or creation" part holds (no storage
operation is performed and the store is unchanged), but the failure is not
the `ApiError`: `src/validators/authValidator.js` never imports `ApiError`,
so both throw sites raise `ReferenceError: ApiError is not defined`, which
crosses the boundary unclassified (the global handler renders it as a
generic 500).  This theorem evaluates the code at the three failing email
shapes. -/
theorem c3_register_invalid_email_reference_error
    (store : List User) (pw fn rl ff cf : Option String) :
    AuthService.register ⟨none, pw, fn, rl⟩ store ff cf
      = (.error (.raw "ReferenceError: ApiError is not defined"), store, [])
    ∧ AuthService.register ⟨some "", pw, fn, rl⟩ store ff cf
      = (.error (.raw "ReferenceError: ApiError is not defined"), store, [])
    ∧ AuthService.register ⟨some "é@b.com", pw, fn, rl⟩ store ff cf
      = (.error (.raw "ReferenceError: ApiError is not defined"), store, []) :=
  ⟨rfl, rfl, rfl⟩

-- -------------------- C4 --------------------

/-- C4: `ProductService.create` with present product data assigns the new
product id `getLastId + 1`, where `getLastId` is the maximum stored id
(`0` on an empty store, so the first product receives id `1`). -/
theorem c4_create_id_assignment (pd : Product) (db : List Product) :
    (ProductService.create (some pd) db none none).1
      = .ok ⟨"Product created successfully", 201,
             { pd with id := ProductRepository.getLastId db + 1 }, "PRODUCT_CREATED"⟩
    ∧ (∀ m : Int, (db.map (fun p => p.id)).max? = some m →
        ProductRepository.getLastId db = m)
    ∧ (db = [] → ProductRepository.getLastId db = 0) := by
  refine ⟨rfl, ?_, ?_⟩
  · intro m hm
    simp [ProductRepository.getLastId, hm]
  · intro h
    subst h
    rfl

/-- Witness for C4 at a concrete store: with one stored product of id 5 the
new id is 6, and on the empty store the new id is 1. -/
theorem c4_create_id_assignment_witness :
    (ProductService.create (some prodA) [prodA] none none).1
      = .ok ⟨"Product created successfully", 201,
             { prodA with id := ProductRepository.getLastId [prodA] + 1 }, "PRODUCT_CREATED"⟩
    ∧ ProductRepository.getLastId [prodA] = 5
    ∧ ProductRepository.getLastId ([] : List Product) = 0 :=
  ⟨(c4_create_id_assignment prodA [prodA]).1,
   (c4_create_id_assignment prodA [prodA]).2.1 5 (by decide),
   (c4_create_id_assignment prodA []).2.2 rfl⟩

-- -------------------- C8 --------------------

/-- C8: `ProductService.delete` on a numeric id not present in the store
(id string `s` with `Number(s) = n`, no stored product with id `n`) fails
with `PRODUCT_NOT_FOUND` 404 — an `ApiError` the catch re-throws untouched,
never a generic 500 — and the store is unchanged, with only the lookup
performed. -/
theorem c8_delete_missing_not_found (s : String) (n : Int) (db : List Product)
    (df : Option String) (hn : jsNumber s = some n) (hs : s ≠ "")
    (hmiss : db.find? (fun p => p.id == n) = none) :
    ProductService.delete (some s) db none df
      = (.error (.api ⟨"Product not found", 404, "PRODUCT_NOT_FOUND", none⟩),
         db, [DbOp.prodFind]) := by
  simp [ProductService.delete, ProductService.deleteTry, jsFalsy, hs, hn,
        findWithIDNum_miss db n hmiss, rethrowOrWrap]

/-- Witness for C8: deleting id 7 from a store holding only id 5. -/
theorem c8_delete_missing_not_found_witness :
    ProductService.delete (some "7") [prodA] none none
      = (.error (.api ⟨"Product not found", 404, "PRODUCT_NOT_FOUND", none⟩),
         [prodA], [DbOp.prodFind]) :=
  c8_delete_missing_not_found "7" 7 [prodA] none (by decide) (by decide) (by decide)

-- -------------------- C9 --------------------

/-- C9: `ProductService.getProductById` on a non-empty id string that does
not parse as a number fails with `PRODUCT_NOT_FOUND` 404 (the repository
maps the `NaN` id to a `null` lookup result, so the service treats it as
"not found", not as a 400 format error), for every store and every storage
outcome; a missing (absent or empty, i.e. falsy) id instead fails with
`MISSING_PRODUCT_ID` 400. -/
theorem c9_get_by_id_non_numeric (s : String) (db : List Product) (ff : Option String)
    (hs : s ≠ "") (hn : jsNumber s = none) :
    ProductService.getProductById (some s) db ff
      = .error (.api ⟨"Product not found", 404, "PRODUCT_NOT_FOUND", none⟩)
    ∧ ∀ (id : Option String) (db' : List Product) (ff' : Option String),
        jsFalsy id = true →
        ProductService.getProductById id db' ff'
          = .error (.api ⟨"Product ID is required", 400, "MISSING_PRODUCT_ID", none⟩) := by
  constructor
  · simp [ProductService.getProductById, jsFalsy, hs,
          ProductRepository.findWithID, hn, rethrowOrWrap]
  · intro id db' ff' h
    simp [ProductService.getProductById, h, rethrowOrWrap]

/-- Witness for C9: id `"abc"` yields 404 `PRODUCT_NOT_FOUND`; an absent id
yields 400 `MISSING_PRODUCT_ID`. -/
theorem c9_get_by_id_non_numeric_witness :
    ProductService.getProductById (some "abc") [prodA] none
      = .error (.api ⟨"Product not found", 404, "PRODUCT_NOT_FOUND", none⟩)
    ∧ ProductService.getProductById none [prodA] none
      = .error (.api ⟨"Product ID is required", 400, "MISSING_PRODUCT_ID", none⟩) :=
  ⟨(c9_get_by_id_non_numeric "abc" [prodA] none (by decide) (by decide)).1,
   (c9_get_by_id_non_numeric "abc" [prodA] none (by decide) (by decide)).2
     none [prodA] none rfl⟩

-- -------------------- C5 --------------------

/-- C5: with `options.random = true`, `ProductRepository.findWithPagination`
applies only the filter and a random sample of size `limit`: at most
`limit` documents are returned, every returned document is a stored
document matching the filter, and the result does not depend on the `sort`
and `skip` options (any options value with the same `random`/`limit`
produces the same listing). -/
theorem c5_random_listing (filter : Product → Bool) (o : QueryOptions)
    (seeds : List Nat) (db : List Product) (hr : o.random = true) :
    (ProductRepository.findWithPagination filter o seeds db).length ≤ o.limit
    ∧ (∀ p ∈ ProductRepository.findWithPagination filter o seeds db,
        p ∈ db ∧ filter p = true)
    ∧ (∀ o' : QueryOptions, o'.random = true → o'.limit = o.limit →
        ProductRepository.findWithPagination filter o' seeds db
          = ProductRepository.findWithPagination filter o seeds db) := by
  refine ⟨?_, ?_, ?_⟩
  · simp only [ProductRepository.findWithPagination, hr, if_true, sampleStage]
    exact List.length_take_le _ _
  · intro p hp
    simp only [ProductRepository.findWithPagination, hr, if_true, sampleStage] at hp
    have h1 : p ∈ db.filter filter :=
      sampleShuffle_mem seeds (db.filter filter) p (List.mem_of_mem_take hp)
    exact ⟨(List.mem_filter.mp h1).1, (List.mem_filter.mp h1).2⟩
  · intro o' hr' hl
    simp only [ProductRepository.findWithPagination, hr, hr', if_true, hl]

/-- Witness for C5: a concrete random listing with limit 1 on a two-element
store, compared against options with different `sort` and `skip`. -/
theorem c5_random_listing_witness :
    (ProductRepository.findWithPagination (fun p => p.price ≤ 200)
        ⟨true, 1, 0, id⟩ [1] [prodA, prodA]).length ≤ 1
    ∧ ProductRepository.findWithPagination (fun p => p.price ≤ 200)
        ⟨true, 1, 7, List.reverse⟩ [1] [prodA, prodA]
      = ProductRepository.findWithPagination (fun p => p.price ≤ 200)
        ⟨true, 1, 0, id⟩ [1] [prodA, prodA] :=
  ⟨(c5_random_listing (fun p => p.price ≤ 200) ⟨true, 1, 0, id⟩ [1] [prodA, prodA] rfl).1,
   (c5_random_listing (fun p => p.price ≤ 200) ⟨true, 1, 0, id⟩ [1] [prodA, prodA] rfl).2.2
     ⟨true, 1, 7, List.reverse⟩ rfl rfl⟩

-- -------------------- C1 --------------------

/-- C1 counterexample: the claim states that no unwrapped exception crosses
the service boundary for any service operation and any storage outcome.
`AuthService.register` has no `try`/`catch`, so when the storage layer
throws during `userRepository.create` the raw storage error — not an
`ApiError` envelope — crosses the boundary: here register of a valid,
fresh email on an empty store with a failing create. -/
theorem c1_counterexample_register_raw_storage_error :
    (AuthService.register ⟨some "a@b.com", some "secret1", some "John Doe", none⟩ []
        none (some "MongoNetworkError: connection refused")).1
      = .error (.raw "MongoNetworkError: connection refused") :=
  rfl

/-- C1 amended: every `ProductService` operation (`getAllProducts`,
`getProductById`, `create`, `update`, `delete`) returns an `ApiSuccess` or
fails with a classified `ApiError` for every input and every storage
outcome; `AuthService.login` (with string credentials) does so whenever its
user lookup does not throw; and `AuthService.register` does so when the
email passes the validator, storage does not throw, and either the email
is a duplicate or the user data is schema-valid — outside these
conditions, `AuthService` propagates unwrapped exceptions. -/
theorem c1_amended_service_results_classified :
    (∀ (filter : Product → Bool) (o : QueryOptions) (seeds : List Nat)
        (db : List Product) (ff : Option String),
        classifiedB (ProductService.getAllProducts filter o seeds db ff) = true)
    ∧ (∀ (id : Option String) (db : List Product) (ff : Option String),
        classifiedB (ProductService.getProductById id db ff) = true)
    ∧ (∀ (pd : Option Product) (db : List Product) (af cf : Option String),
        classifiedB (ProductService.create pd db af cf).1 = true)
    ∧ (∀ (id : Option String) (patch : Option (List PatchOp)) (db : List Product)
        (ff sf : Option String),
        classifiedB (ProductService.update id patch db ff sf).1 = true)
    ∧ (∀ (id : Option String) (db : List Product) (ff df : Option String),
        classifiedB (ProductService.delete id db ff df).1 = true)
    ∧ (∀ (inp : RegisterInput) (store : List User),
        emailInvalid inp.email = false →
        ((UserRepository.findByEmail store (inp.email.getD "")).isSome = true ∨
          userValidate (jsTrim (inp.fullName.getD "")) (emailSetter (inp.email.getD ""))
            (inp.password.getD "") inp.role = true) →
        classifiedB (AuthService.register inp store none none).1 = true)
    ∧ (∀ (e p : String) (store : List User),
        classifiedB (AuthService.login e p store none) = true) := by
  refine ⟨?_, ?_, ?_, ?_, ?_, ?_, ?_⟩
  · intro filter o seeds db ff
    exact classifiedB_rethrowOrWrap _ _ _
  · intro id db ff
    exact classifiedB_rethrowOrWrap _ _ _
  · intro pd db af cf
    exact classifiedB_wrapAll _ _ _
  · intro id patch db ff sf
    exact classifiedB_wrapAll _ _ _
  · intro id db ff df
    exact classifiedB_rethrowOrWrap _ _ _
  · intro inp store h1 h2
    obtain ⟨e, he⟩ : ∃ e, inp.email = some e := by
      cases hh : inp.email with
      | none => rw [hh] at h1; simp [emailInvalid] at h1
      | some e => exact ⟨e, rfl⟩
    rw [he] at h1 h2
    simp only [Option.getD_some] at h2
    simp only [emailInvalid, Bool.or_eq_false_iff, Bool.not_eq_false] at h1
    have he1 : ¬ e = "" := by simpa using h1.1
    have he2 : isAsciiStr e = true := by simpa using h1.2
    have hval : validateEmail (some e) = .ok () := by
      simp [validateEmail, he1, he2]
    simp only [AuthService.register, he, hval, Option.getD_some]
    cases hf : UserRepository.findByEmail store e with
    | some u => simp [classifiedB]
    | none =>
        rcases h2 with h2 | h2
        · rw [hf] at h2
          simp at h2
        · simp [UserRepository.create, he, h2, classifiedB]
  · intro e p store
    simp only [AuthService.login]
    cases hf : UserRepository.findByEmail store e with
    | none => simp [classifiedB]
    | some u =>
        by_cases hc : comparePassword p u.password
        · simp [hc, classifiedB]
        · simp [hc, classifiedB]

/-- Witness for the C1 amended theorem: a successful register (classified)
and a classified product update under an injected storage failure. -/
theorem c1_amended_service_results_classified_witness :
    classifiedB ((AuthService.register
        ⟨some "a@b.com", some "secret1", some "John Doe", none⟩ [] none none).1) = true
    ∧ classifiedB ((ProductService.update (some "5") (some [PatchOp.price 50]) [prodA]
        (some "MongoNetworkError") none).1) = true :=
  ⟨c1_amended_service_results_classified.2.2.2.2.2.1
      ⟨some "a@b.com", some "secret1", some "John Doe", none⟩ [] (by decide)
      (Or.inr (by decide)),
   c1_amended_service_results_classified.2.2.2.1
      (some "5") (some [PatchOp.price 50]) [prodA] (some "MongoNetworkError") none⟩

-- -------------------- C7 --------------------

/-- C7: for a stored user reachable by email `e`, `AuthService.login` with a
non-matching password (candidate whose hash differs from the stored digest)
fails with `INVALID_PASSWORD` 401; with the matching password it succeeds
with `USER_LOGIN` 200 and a token whose embedded claims equal the stored
`{id, email, fullName, role}`. -/
theorem c7_login_password_check (store : List User) (e p : String) (u : User)
    (hf : UserRepository.findByEmail store e = some u) :
    (u.password ≠ hashFn p →
        AuthService.login e p store none
          = .error (.api ⟨"Invalid password", 401, "INVALID_PASSWORD", none⟩))
    ∧ (u.password = hashFn p →
        AuthService.login e p store none
          = .ok ⟨"User logged in successfully", 200,
                 ⟨TokenService.generateToken ⟨u.uid, u.email, u.fullName, u.role⟩,
                  ⟨u.uid, u.email, u.fullName, u.role⟩⟩, "USER_LOGIN"⟩)
    ∧ (TokenService.generateToken ⟨u.uid, u.email, u.fullName, u.role⟩).claims
        = ⟨u.uid, u.email, u.fullName, u.role⟩ := by
  refine ⟨?_, ?_, rfl⟩
  · intro hne
    simp [AuthService.login, hf, comparePassword, hne]
  · intro heq
    simp [AuthService.login, hf, comparePassword, heq]

/-- Witness for C7: wrong password `"wrongpw"` against `userA` fails 401;
the stored password `"secret1"` logs in with the stored claims. -/
theorem c7_login_password_check_witness :
    AuthService.login "a@b.com" "wrongpw" [userA] none
      = .error (.api ⟨"Invalid password", 401, "INVALID_PASSWORD", none⟩)
    ∧ AuthService.login "a@b.com" "secret1" [userA] none
      = .ok ⟨"User logged in successfully", 200,
             ⟨TokenService.generateToken ⟨userA.uid, userA.email, userA.fullName, userA.role⟩,
              ⟨userA.uid, userA.email, userA.fullName, userA.role⟩⟩, "USER_LOGIN"⟩ :=
  ⟨(c7_login_password_check [userA] "a@b.com" "wrongpw" userA rfl).1 (by decide),
   (c7_login_password_check [userA] "a@b.com" "secret1" userA rfl).2.1 rfl⟩

-- -------------------- C10 --------------------

/-- C10: `AuthService.register` forwards the caller-supplied role unchanged
into the created user: with `role = "admin"` (email passing the validator,
no duplicate, schema-valid data) the stored user has role `admin` — no
allow-listing beyond the schema enum — and with `role` absent the stored
user's role defaults to `"user"`. -/
theorem c10_role_forwarded_unchanged (e pw fn : String) (store : List User)
    (he : e ≠ "") (ha : isAsciiStr e = true)
    (hfresh : UserRepository.findByEmail store e = none)
    (hv : userValidate (jsTrim fn) (emailSetter e) pw none = true) :
    AuthService.register ⟨some e, some pw, some fn, some "admin"⟩ store none none
      = (.ok ⟨"User created successfully", 201, store.length + 1, "USER_CREATED"⟩,
         store ++ [⟨store.length + 1, jsTrim fn, emailSetter e, hashFn pw, "admin"⟩],
         [DbOp.userFind, DbOp.userWrite])
    ∧ AuthService.register ⟨some e, some pw, some fn, none⟩ store none none
      = (.ok ⟨"User created successfully", 201, store.length + 1, "USER_CREATED"⟩,
         store ++ [⟨store.length + 1, jsTrim fn, emailSetter e, hashFn pw, "user"⟩],
         [DbOp.userFind, DbOp.userWrite]) := by
  have hv' : userValidate (jsTrim fn) (emailSetter e) pw (some "admin") = true := by
    simp only [userValidate] at hv ⊢
    simp_all
  constructor
  · simp [AuthService.register, validateEmail, he, ha, hfresh,
          UserRepository.create, hv']
  · simp [AuthService.register, validateEmail, he, ha, hfresh,
          UserRepository.create, hv]

/-- Witness for C10: registering `"a@b.com"` with role `"admin"` on an empty
store creates an admin user; without a role it creates a `"user"`. -/
theorem c10_role_forwarded_unchanged_witness :
    AuthService.register ⟨some "a@b.com", some "secret1", some "John Doe", some "admin"⟩
        [] none none
      = (.ok ⟨"User created successfully", 201, 1, "USER_CREATED"⟩,
         [⟨1, jsTrim "John Doe", emailSetter "a@b.com", hashFn "secret1", "admin"⟩],
         [DbOp.userFind, DbOp.userWrite])
    ∧ AuthService.register ⟨some "a@b.com", some "secret1", some "John Doe", none⟩
        [] none none
      = (.ok ⟨"User created successfully", 201, 1, "USER_CREATED"⟩,
         [⟨1, jsTrim "John Doe", emailSetter "a@b.com", hashFn "secret1", "user"⟩],
         [DbOp.userFind, DbOp.userWrite]) :=
  c10_role_forwarded_unchanged "a@b.com" "secret1" "John Doe" []
    (by decide) (by decide) (by decide) (by decide)

-- -------------------- C6 --------------------

/-- ASCII lowercasing does not change whether a character is ASCII. -/
theorem lowerChar_toNat_le (c : Char) : ((lowerChar c).toNat ≤ 127) ↔ (c.toNat ≤ 127) := by
  unfold lowerChar
  split <;> simp_all

/-- When two strings agree after lowercasing and the first is all-ASCII, so
is the second. -/
theorem isAsciiStr_of_lower_eq (e1 e2 : String) (h : asciiLower e1 = asciiLower e2)
    (ha : isAsciiStr e1 = true) : isAsciiStr e2 = true := by
  unfold isAsciiStr at ha ⊢
  rw [List.all_eq_true] at ha ⊢
  intro c hc
  have hmap : e1.data.map lowerChar = e2.data.map lowerChar := congrArg String.data h
  have hmem : lowerChar c ∈ e1.data.map lowerChar := by
    rw [hmap]; exact List.mem_map_of_mem lowerChar hc
  obtain ⟨c1, hc1, hce⟩ := List.mem_map.mp hmem
  have h1 : c1.toNat ≤ 127 := by simpa using ha c1 hc1
  have h2 : (lowerChar c1).toNat ≤ 127 := (lowerChar_toNat_le c1).mpr h1
  rw [hce] at h2
  simpa using (lowerChar_toNat_le c).mp h2

/-- When two strings agree after lowercasing and the first is nonempty, so
is the second. -/
theorem ne_empty_of_lower_eq (e1 e2 : String) (h : asciiLower e1 = asciiLower e2)
    (hne : e1 ≠ "") : e2 ≠ "" := by
  intro h2
  apply hne
  have hmap : e1.data.map lowerChar = e2.data.map lowerChar := congrArg String.data h
  rw [h2] at hmap
  simp only [String.data, List.map_eq_nil_iff] at hmap
  exact String.ext (by simpa using hmap)

/-- Strings that agree after lowercasing receive the same email setter
value (lowercase + trim). -/
theorem emailSetter_of_lower_eq (e1 e2 : String) (h : asciiLower e1 = asciiLower e2) :
    emailSetter e1 = emailSetter e2 := by
  unfold emailSetter
  rw [h]

/-- C6: when a register call with email `e1` succeeds, a second register call
whose email `e2` equals `e1` up to ASCII letter case fails with
`EMAIL_EXISTS` 400, leaves the store unchanged and creates no user (its
only storage operation is the lookup). -/
theorem c6_duplicate_email_case_insensitive
    (e1 e2 : String) (pw1 fn1 rl1 pw2 fn2 rl2 : Option String) (store : List User)
    (hok : (AuthService.register ⟨some e1, pw1, fn1, rl1⟩ store none none).1.isOk = true)
    (hlow : asciiLower e1 = asciiLower e2) :
    AuthService.register ⟨some e2, pw2, fn2, rl2⟩
        ((AuthService.register ⟨some e1, pw1, fn1, rl1⟩ store none none).2.1) none none
      = (.error (.api ⟨"Email already exists", 400, "EMAIL_EXISTS", none⟩),
         (AuthService.register ⟨some e1, pw1, fn1, rl1⟩ store none none).2.1,
         [DbOp.userFind]) := by
  by_cases h1 : e1 = ""
  · simp [AuthService.register, validateEmail, h1, Except.isOk, Except.toBool] at hok
  cases h2 : isAsciiStr e1 with
  | false => simp [AuthService.register, validateEmail, h1, h2, Except.isOk, Except.toBool] at hok
  | true =>
      have hval : validateEmail (some e1) = .ok () := by
        simp [validateEmail, h1, h2]
      cases hf : UserRepository.findByEmail store e1 with
      | some u => simp [AuthService.register, hval, hf, Except.isOk, Except.toBool] at hok
      | none =>
          cases hv : userValidate (jsTrim (fn1.getD "")) (emailSetter e1) (pw1.getD "") rl1 with
          | false =>
              simp [AuthService.register, hval, hf, UserRepository.create, hv,
                    Except.isOk, Except.toBool] at hok
          | true =>
              have hreg1 : AuthService.register ⟨some e1, pw1, fn1, rl1⟩ store none none
                  = (.ok ⟨"User created successfully", 201, store.length + 1, "USER_CREATED"⟩,
                     store ++ [⟨store.length + 1, jsTrim (fn1.getD ""), emailSetter e1,
                                hashFn (pw1.getD ""), rl1.getD "user"⟩],
                     [DbOp.userFind, DbOp.userWrite]) := by
                simp [AuthService.register, hval, hf, UserRepository.create, hv]
              rw [hreg1]
              have he2 : e2 ≠ "" := ne_empty_of_lower_eq e1 e2 hlow h1
              have ha2 : isAsciiStr e2 = true := isAsciiStr_of_lower_eq e1 e2 hlow h2
              have hset : emailSetter e2 = emailSetter e1 :=
                (emailSetter_of_lower_eq e1 e2 hlow).symm
              have hfind2 : UserRepository.findByEmail
                  (store ++ [⟨store.length + 1, jsTrim (fn1.getD ""), emailSetter e1,
                              hashFn (pw1.getD ""), rl1.getD "user"⟩]) e2
                  = some ⟨store.length + 1, jsTrim (fn1.getD ""), emailSetter e1,
                          hashFn (pw1.getD ""), rl1.getD "user"⟩ := by
                unfold UserRepository.findByEmail at hf ⊢
                rw [hset, List.find?_append, hf]
                simp
              simp [AuthService.register, validateEmail, he2, ha2, hfind2]

/-- Witness for C6: after registering `"A@B.com"`, registering `"a@b.com"`
(same email up to ASCII case) fails with `EMAIL_EXISTS` and the store stays
as after the first call. -/
theorem c6_duplicate_email_case_insensitive_witness :
    AuthService.register ⟨some "a@b.com", some "secret2", some "Jane Doe", none⟩
        ((AuthService.register ⟨some "A@B.com", some "secret1", some "John Doe", none⟩
            [] none none).2.1) none none
      = (.error (.api ⟨"Email already exists", 400, "EMAIL_EXISTS", none⟩),
         (AuthService.register ⟨some "A@B.com", some "secret1", some "John Doe", none⟩
            [] none none).2.1,
         [DbOp.userFind]) :=
  c6_duplicate_email_case_insensitive "A@B.com" "a@b.com"
    (some "secret1") (some "John Doe") none (some "secret2") (some "Jane Doe") none []
    rfl rfl
